import Mathlib

/-!
Shallow embedding of the `citationberg` CSL style library (Rust sources
`src/lib.rs` and `src/json.rs`) together with theorems settling the frozen
claims about its specification.

Conventions of the embedding:
* Rust `Option<T>` becomes `Option T`; fallible conversions become
  `Except`/`Option` results.
* Machine integers become `Nat`/`Int`; where wrap-around of an unsigned
  subtraction or a lossy `as` cast matters it is written out explicitly with
  `% 256` / `Int.emod`.  `usize::MAX` is the constant `2 ^ 64 - 1`.
* Rust `%` on signed integers is truncated remainder, embedded as `Int.tmod`;
  `/` is truncated division, embedded as `Int.tdiv`.
* Struct and function names follow the Rust source (snake_case fields).
-/

namespace Citationberg

/-- `NameAnd` (lib.rs): how to render the delimiter before the last name. -/
inductive NameAnd where
  | text
  | symbol
deriving DecidableEq, Repr

/-- `DelimiterBehavior` (lib.rs). -/
inductive DelimiterBehavior where
  | contextual
  | afterInvertedName
  | always
  | never
deriving DecidableEq, Repr

/-- `NameForm` (lib.rs): how many name parts to print. -/
inductive NameForm where
  | long
  | short
  | count
deriving DecidableEq, Repr

/-- `NameAsSortOrder` (lib.rs): in which order to print the names. -/
inductive NameAsSortOrder where
  | first
  | all
deriving DecidableEq, Repr

/-- `InheritableNameOptions` (lib.rs): global configuration of how to print
names; every field is optional, absence means "inherit". -/
structure InheritableNameOptions where
  and : Option NameAnd := none
  name_delimiter : Option String := none
  names_delimiter : Option String := none
  delimiter_precedes_et_al : Option DelimiterBehavior := none
  delimiter_precedes_last : Option DelimiterBehavior := none
  et_al_min : Option Nat := none
  et_al_use_first : Option Nat := none
  et_al_subsequent_min : Option Nat := none
  et_al_subsequent_use_first : Option Nat := none
  et_al_use_last : Option Bool := none
  name_form : Option NameForm := none
  initialise : Option Bool := none
  initialise_with : Option String := none
  name_as_sort_order : Option NameAsSortOrder := none
  sort_separator : Option String := none
deriving DecidableEq, Repr

/-- `InheritableNameOptions::apply` (lib.rs): apply the child options to the
parent options, field by field (`child.f.or(parent.f)`). -/
def InheritableNameOptions.apply (parent child : InheritableNameOptions) :
    InheritableNameOptions where
  and := child.and.or parent.and
  name_delimiter := child.name_delimiter.or parent.name_delimiter
  names_delimiter := child.names_delimiter.or parent.names_delimiter
  delimiter_precedes_et_al :=
    child.delimiter_precedes_et_al.or parent.delimiter_precedes_et_al
  delimiter_precedes_last :=
    child.delimiter_precedes_last.or parent.delimiter_precedes_last
  et_al_min := child.et_al_min.or parent.et_al_min
  et_al_use_first := child.et_al_use_first.or parent.et_al_use_first
  et_al_subsequent_min := child.et_al_subsequent_min.or parent.et_al_subsequent_min
  et_al_subsequent_use_first :=
    child.et_al_subsequent_use_first.or parent.et_al_subsequent_use_first
  et_al_use_last := child.et_al_use_last.or parent.et_al_use_last
  name_form := child.name_form.or parent.name_form
  initialise := child.initialise.or parent.initialise
  initialise_with := child.initialise_with.or parent.initialise_with
  name_as_sort_order := child.name_as_sort_order.or parent.name_as_sort_order
  sort_separator := child.sort_separator.or parent.sort_separator

/-- `NameOptions` (lib.rs): definite (fully cascaded) name options. -/
structure NameOptions where
  and : Option NameAnd := none
  delimiter : String := ", "
  delimiter_precedes_et_al : DelimiterBehavior := .contextual
  delimiter_precedes_last : DelimiterBehavior := .contextual
  et_al_min : Option Nat := none
  et_al_use_first : Option Nat := none
  et_al_subsequent_min : Option Nat := none
  et_al_subsequent_use_first : Option Nat := none
  et_al_use_last : Bool := false
  form : NameForm := .long
  initialise : Bool := true
  initialise_with : Option String := none
  name_as_sort_order : Option NameAsSortOrder := none
  sort_separator : String := ", "
deriving DecidableEq, Repr

/-- `usize::MAX` on a 64-bit target. -/
def USIZE_MAX : Nat := 2 ^ 64 - 1

/-- `NameOptions::is_suppressed` (lib.rs): whether the `idx`-th name of a
list of `length` names is suppressed behind "et al.".  The unset thresholds
are mapped to `usize::MAX` exactly as in the source (`map_or(usize::MAX, ..)`). -/
def NameOptions.is_suppressed (o : NameOptions) (idx length : Nat)
    (is_subsequent : Bool) : Bool :=
  if o.et_al_use_last && decide (idx + 1 ≥ length) then false
  else
    let pair :=
      if is_subsequent then
        (o.et_al_subsequent_min.or o.et_al_min,
         o.et_al_subsequent_use_first.or o.et_al_use_first)
      else (o.et_al_min, o.et_al_use_first)
    let et_al_min := pair.1.elim USIZE_MAX id
    let et_al_use_first := pair.2.elim USIZE_MAX id
    decide (length ≥ et_al_min) && decide (idx + 1 > et_al_use_first)

/-- Modelled from the spec's wording of §4.2 (for comparison with the source
function `NameOptions.is_suppressed`): suppress iff `total_count >= et_al_min`
and `index + 1 > et_al_use_first`, where an unset threshold never triggers,
after the use-last and subsequent-threshold selection. -/
def NameOptions.spec_is_suppressed (o : NameOptions) (idx length : Nat)
    (is_subsequent : Bool) : Bool :=
  if o.et_al_use_last ∧ idx + 1 = length then false
  else
    let m :=
      if is_subsequent then o.et_al_subsequent_min.or o.et_al_min else o.et_al_min
    let u :=
      if is_subsequent then o.et_al_subsequent_use_first.or o.et_al_use_first
      else o.et_al_use_first
    (match m with | some mv => decide (length ≥ mv) | none => false) &&
    (match u with | some uv => decide (idx + 1 > uv) | none => false)

/-- `LocaleCode` (lib.rs): an RFC 1766 language code (tuple struct around a
string; the field is named `code` here since Lean has no positional fields). -/
structure LocaleCode where
  code : String
deriving DecidableEq, Repr

/-- `StyleClass` (lib.rs): how the citations are displayed. -/
inductive StyleClass where
  | inText
  | note
deriving DecidableEq, Repr

/-- `PageRangeFormat` (lib.rs): how to reformat page ranges. -/
inductive PageRangeFormat where
  | chicago15
  | chicago16
  | expanded
  | minimal
  | minimalTwo
deriving DecidableEq, Repr

/-- `DemoteNonDroppingParticle` (lib.rs). -/
inductive DemoteNonDroppingParticle where
  | never
  | sortOnly
  | displayAndSort
deriving DecidableEq, Repr

/-- `CitationFormat` (lib.rs): what type of in-text citation is used. -/
inductive CitationFormat where
  | authorDate
  | author
  | numeric
  | label
  | note
deriving DecidableEq, Repr

/-- `Field` (lib.rs): in which academic field the style is used. -/
inductive Field where
  | anthropology | astronomy | biology | botany | chemistry | communications
  | engineering | genericBase | geography | geology | history | humanities
  | law | linguistics | literature | math | medicine | philosophy | physics
  | politicalScience | psychology | science | socialScience | sociology
  | theology | zoology
deriving DecidableEq, Repr

/-- `StyleCategory` (lib.rs): which category this style belongs in. -/
inductive StyleCategory where
  | citationFormat (format : CitationFormat)
  | field (field : Field)
deriving DecidableEq, Repr

/-- `StyleAttribution` (lib.rs): a person affiliated with the style. -/
structure StyleAttribution where
  name : String
  email : Option String := none
  uri : Option String := none
deriving DecidableEq, Repr

/-- `InfoLinkRel` (lib.rs): how a link relates to the style. -/
inductive InfoLinkRel where
  | zelf
  | template
  | documentation
  | independentParent
deriving DecidableEq, Repr

/-- `InfoLink` (lib.rs): a link with more information about the style. -/
structure InfoLink where
  href : String
  rel : InfoLinkRel
  description : Option String := none
  locale : Option LocaleCode := none
deriving DecidableEq, Repr

/-- `Timestamp` (lib.rs): an ISO 8601 chapter 5.4 timestamp. -/
structure Timestamp where
  raw : String
deriving DecidableEq, Repr

/-- `License` (lib.rs): a license description. -/
structure License where
  name : String
  license : Option String := none
  lang : Option LocaleCode := none
deriving DecidableEq, Repr

/-- `LocalString` (lib.rs): a string with an optional locale. -/
structure LocalString where
  lang : Option LocaleCode := none
  value : String := ""
deriving DecidableEq, Repr

/-- `StyleInfo` (lib.rs): the metadata of a style. -/
structure StyleInfo where
  authors : List StyleAttribution := []
  contibutors : List StyleAttribution := []
  category : List StyleCategory := []
  field : List Field := []
  id : String := ""
  issn : List String := []
  eissn : Option String := none
  issnl : Option String := none
  link : List InfoLink := []
  published : Option Timestamp := none
  rights : Option License := none
  summary : Option LocalString := none
  title : LocalString := {}
  title_short : Option LocalString := none
  updated : Option Timestamp := none
deriving DecidableEq, Repr

/-- `IndependentStyleSettings` (lib.rs): settings of an independent style. -/
structure IndependentStyleSettings where
  class_ : StyleClass
  initialise_with_hyphen : Bool := true
  page_range_format : Option PageRangeFormat := none
  demote_non_dropping_particle : DemoteNonDroppingParticle := .displayAndSort
  options : InheritableNameOptions := {}
deriving DecidableEq, Repr

section StylePayload

/-
The style validator moves the citation layout, the bibliography layout, the
macros and the inline locale overrides by value and never inspects them, so
the embedding is parametric in those four payload types (`Citation`,
`Bibliography`, `CslMacro`, `Locale` of lib.rs).
-/
variable (C B M L : Type)

/-- `RawStyle` (lib.rs): the raw parsed style record, before validation. -/
structure RawStyle where
  info : StyleInfo
  default_locale : Option LocaleCode := none
  version : String := ""
  citation : Option C := none
  bibliography : Option B := none
  independent_settings : Option IndependentStyleSettings := none
  macros : List M := []
  locale : List L := []

/-- `IndependentStyle` (lib.rs). -/
structure IndependentStyle where
  info : StyleInfo
  default_locale : Option LocaleCode
  version : String
  citation : C
  bibliography : Option B
  settings : IndependentStyleSettings
  macros : List M
  locale : List L

/-- `DependentStyle` (lib.rs). -/
structure DependentStyle where
  info : StyleInfo
  default_locale : Option LocaleCode
  version : String
  parent_link : InfoLink
deriving DecidableEq, Repr

/-- `Style` (lib.rs): a CSL style, independent or dependent. -/
inductive Style where
  | independent (i : IndependentStyle C B M L)
  | dependent (d : DependentStyle)

end StylePayload

/-- `StyleValidationError` (lib.rs): an error that occurred while validating
a style. -/
inductive StyleValidationError where
  | missingCitation
  | missingParent
  | missingClassAttr
deriving DecidableEq, Repr

variable {C B M L : Type}

/-- `RawStyle::parent_link` (lib.rs): the first metadata link whose `rel` is
`independent-parent`. -/
def RawStyle.parent_link (r : RawStyle C B M L) : Option InfoLink :=
  r.info.link.find? (fun link => link.rel = InfoLinkRel.independentParent)

/-- `TryFrom<RawStyle> for Style` (lib.rs): classify a raw style record as
independent or dependent, or fail with a validation error. -/
def Style.try_from (value : RawStyle C B M L) :
    Except StyleValidationError (Style C B M L) :=
  let has_bibliography := value.bibliography.isSome
  match value.citation with
  | some citation =>
    match value.independent_settings with
    | some settings =>
      .ok (.independent
        { info := value.info
          default_locale := value.default_locale
          version := value.version
          citation := citation
          bibliography := value.bibliography
          settings := settings
          macros := value.macros
          locale := value.locale })
    | none => .error .missingClassAttr
  | none =>
    if has_bibliography then .error .missingCitation
    else
      match value.parent_link with
      | some parent_link =>
        .ok (.dependent
          { info := value.info
            default_locale := value.default_locale
            version := value.version
            parent_link := parent_link })
      | none => .error .missingParent

/-- `BaseLanguage` (lib.rs): the base language in a `LocaleCode`.  The source
stores `Iso639_1` as `[u8; 2]` and `Unregistered` as a zero-padded `[u8; 8]`;
both are embedded as the underlying string (two characters, resp. at most
eight characters, as enforced by `parse_base`). -/
inductive BaseLanguage where
  | iso639_1 (code : String)
  | iana (code : String)
  | unregistered (code : String)
deriving DecidableEq, Repr

/-- Rust's `str::split(sep)` on a character separator, at the level of the
underlying character list (splitting an empty string yields one empty part,
like the Rust iterator). -/
def split_char (sep : Char) : List Char → List String
  | [] => [""]
  | c :: rest =>
    match split_char sep rest with
    | [] => [""]
    | h :: t =>
      if c = sep then "" :: h :: t
      else String.mk (c :: h.data) :: t

/-- `LocaleCode::parse_base` (lib.rs): split on `'-'`, look at the first (and
possibly second) part. -/
def LocaleCode.parse_base (lc : LocaleCode) : Option BaseLanguage :=
  let parts := (split_char '-' lc.code.data).take 2
  match parts with
  | [] => none
  | first :: rest =>
    if first = "i" ∨ first = "I" then
      match rest.head? with
      | none => none
      | some second =>
        if second = "" then none
        else some (.iana second)
    else if first = "x" ∨ first = "X" then
      match rest.head? with
      | none => none
      | some second =>
        if second.length > 8 ∨ second = "" then none
        else some (.unregistered second)
    else if first.length = 2 then some (.iso639_1 first)
    else none

/-- The fixed base-language → region-qualified-code table inside
`LocaleCode::fallback` (lib.rs). -/
def locale_fallback_table (code : String) : Option String :=
  match code with
  | "af" => some "af-ZA"
  | "bg" => some "bg-BG"
  | "ca" => some "ca-AD"
  | "cs" => some "cs-CZ"
  | "da" => some "da-DK"
  | "de" => some "de-DE"
  | "el" => some "el-GR"
  | "en" => some "en-US"
  | "es" => some "es-ES"
  | "et" => some "et-EE"
  | "fa" => some "fa-IR"
  | "fi" => some "fi-FI"
  | "fr" => some "fr-FR"
  | "he" => some "he-IL"
  | "hr" => some "hr-HR"
  | "hu" => some "hu-HU"
  | "is" => some "is-IS"
  | "it" => some "it-IT"
  | "ja" => some "ja-JP"
  | "km" => some "km-KH"
  | "ko" => some "ko-KR"
  | "lt" => some "lt-LT"
  | "lv" => some "lv-LV"
  | "mn" => some "mn-MN"
  | "nb" => some "nb-NO"
  | "nl" => some "nl-NL"
  | "nn" => some "nn-NO"
  | "pl" => some "pl-PL"
  | "pt" => some "pt-PT"
  | "ro" => some "ro-RO"
  | "ru" => some "ru-RU"
  | "sk" => some "sk-SK"
  | "sl" => some "sl-SI"
  | "sr" => some "sr-RS"
  | "sv" => some "sv-SE"
  | "th" => some "th-TH"
  | "tr" => some "tr-TR"
  | "uk" => some "uk-UA"
  | "vi" => some "vi-VN"
  | "zh" => some "zh-CN"
  | _ => none

/-- `LocaleCode::fallback` (lib.rs): map an ISO 639-1 base language through
the fixed table and drop the result when it equals the input. -/
def LocaleCode.fallback (lc : LocaleCode) : Option LocaleCode :=
  match lc.parse_base with
  | some (.iso639_1 code) =>
    ((locale_fallback_table code).map LocaleCode.mk).filter (fun f => f ≠ lc)
  | _ => none

/-- `FixedDate` (json.rs): a date defined by fixed components.  `year` is an
`i16` (embedded as `Int`), `month`/`day` are `Option<u8>` (embedded as
`Option Nat` with values in `0..=255`). -/
structure FixedDate where
  year : Int
  month : Option Nat := none
  day : Option Nat := none
deriving DecidableEq, Repr

/-- `VecDate` (json.rs): a date defined by an arbitrary sequence of integer
components (`Vec<i16>`, embedded as `List Int`). -/
structure VecDate where
  parts : List Int
deriving DecidableEq, Repr

/-- `FixedDateRange` (json.rs): a range of dates defined by fixed components. -/
structure FixedDateRange where
  start : FixedDate
  end_ : Option FixedDate := none
deriving DecidableEq, Repr

/-- `VecDateRange` (json.rs): a range of dates defined by arbitrary sequences
of integer components. -/
structure VecDateRange where
  dates : List VecDate
deriving DecidableEq, Repr

/-- `From<FixedDate> for VecDate` (json.rs): push the year, then the month
and the day (each `as i16`, without any offset) while they are present. -/
def VecDate.from_fixed (value : FixedDate) : VecDate :=
  VecDate.mk <|
    value.year ::
      (match value.month with
       | some month =>
         (month : Int) ::
           (match value.day with
            | some day => [(day : Int)]
            | none => [])
       | none => [])

/-- `From<VecDate> for FixedDate` (json.rs): the first component is the year
(`v.next().unwrap()` — the source panics on an empty vector, embedded here as
`none`), the second and third are month and day via `(v - 1) as u8` (an `i16`
to `u8` truncating cast, i.e. `(v - 1).emod 256`). -/
def FixedDate.from_vec (value : VecDate) : Option FixedDate :=
  match value.parts with
  | [] => none
  | year :: rest =>
    some
      { year := year
        month := rest.head?.map (fun v => ((v - 1).emod 256).toNat)
        day := (rest.drop 1).head?.map (fun v => ((v - 1).emod 256).toNat) }

/-- `From<FixedDateRange> for VecDateRange` (json.rs): start endpoint, then
the end endpoint when present. -/
def VecDateRange.from_fixed (value : FixedDateRange) : VecDateRange :=
  VecDateRange.mk <|
    VecDate.from_fixed value.start ::
      (match value.end_ with
       | some e => [VecDate.from_fixed e]
       | none => [])

/-- `TryFrom<VecDateRange> for FixedDateRange` (json.rs): fails (`Err(())`)
when there are zero endpoints or more than two; an endpoint with no
components makes the source panic, embedded as `none` via
`FixedDate.from_vec`. -/
def FixedDateRange.try_from_vec (value : VecDateRange) :
    Option FixedDateRange :=
  match value.dates with
  | [] => none
  | d1 :: rest =>
    match rest with
    | [] => (FixedDate.from_vec d1).map (fun s => { start := s, end_ := none })
    | d2 :: [] =>
      (FixedDate.from_vec d1).bind fun s =>
        (FixedDate.from_vec d2).map fun e => { start := s, end_ := some e }
    | _ :: _ :: _ => none

/-- The numeric value of a run of ASCII digits (most significant first). -/
def digits_to_nat (ds : List Char) : Nat :=
  ds.foldl (fun acc c => acc * 10 + (c.toNat - '0'.toNat)) 0

/-- Rust `str::parse::<u8>` on a run of ASCII digits: fails on an empty run
and on overflow past `255`. -/
def parse_u8 (ds : List Char) : Option Nat :=
  if ds = [] then none
  else if digits_to_nat ds ≤ 255 then some (digits_to_nat ds) else none

/-- Rust `str::parse::<i16>` on a run of ASCII digits: fails on an empty run
and on overflow past `32767`. -/
def parse_i16 (ds : List Char) : Option Int :=
  if ds = [] then none
  else if digits_to_nat ds ≤ 32767 then some (digits_to_nat ds : Int) else none

/-- `parse_date` (json.rs) over the remaining scanner input: eat a digit run
for the year, then optionally `-MONTH` and `-DAY`.  The `u8` subtractions
`month - 1` / `day - 1` wrap modulo `256` (Rust release-mode semantics), so a
component with value `0` becomes `255` and fails the range check.  Returns
the parsed date together with the rest of the input. -/
def parse_date (s : List Char) : Option (FixedDate × List Char) :=
  let year_digits := s.takeWhile Char.isDigit
  let s1 := s.dropWhile Char.isDigit
  match parse_i16 year_digits with
  | none => none
  | some year =>
    match s1 with
    | '-' :: s2 =>
      let month_digits := s2.takeWhile Char.isDigit
      let s3 := s2.dropWhile Char.isDigit
      match parse_u8 month_digits with
      | none => none
      | some mv =>
        let month := (mv + 255) % 256
        if month > 11 then none
        else
          match s3 with
          | '-' :: s4 =>
            let day_digits := s4.takeWhile Char.isDigit
            let s5 := s4.dropWhile Char.isDigit
            match parse_u8 day_digits with
            | none => none
            | some dv =>
              let day := (dv + 255) % 256
              if day > 31 then none
              else some ({ year := year, month := some month, day := some day }, s5)
          | _ => some ({ year := year, month := some month, day := none }, s3)
    | _ => some ({ year := year, month := none, day := none }, s1)

/-- `FromStr for FixedDateRange` (json.rs): parse the start date; if the next
eaten character is `'/'`, parse the end date; any other (or no) next
character means there is no end date. -/
def FixedDateRange.from_str (s : List Char) : Option FixedDateRange :=
  match parse_date s with
  | none => none
  | some (start, rest) =>
    match rest with
    | '/' :: rest2 =>
      (parse_date rest2).map (fun p => { start := start, end_ := some p.1 })
    | _ => some { start := start, end_ := none }

/-- `ChooseMatch` (lib.rs): how to handle the set of tests of a branch. -/
inductive ChooseMatch where
  | all
  | any
  | none
deriving DecidableEq, Repr

section ChooseModel

/-
The taxonomy payloads of a conditional branch (`Variable`, `DateVariable`,
`Locator`, `TestPosition`, `Kind`) and the child rendering elements are inert
for `ChooseBranch::test`, so the embedding is parametric in them.
-/
variable (V DV Loc Pos K E : Type)

/-- `ChooseBranch` (lib.rs): a single branch of a conditional group. -/
structure ChooseBranch where
  disambiguate : Option Bool := Option.none
  is_numeric : Option (List V) := Option.none
  is_uncertain_date : Option (List DV) := Option.none
  locator : Option (List Loc) := Option.none
  position : Option (List Pos) := Option.none
  type_ : Option (List K) := Option.none
  variable_ : Option (List V) := Option.none
  match_ : ChooseMatch := .all
  children : List E := []

/-- `ChooseTest` (lib.rs): a single test in a conditional group (the borrowed
slices of the source are embedded as lists). -/
inductive ChooseTest where
  | disambiguate
  | isNumeric (vs : List V)
  | isUncertainDate (vs : List DV)
  | locator (vs : List Loc)
  | position (vs : List Pos)
  | type_ (vs : List K)
  | variable_ (vs : List V)

end ChooseModel

variable {V DV Loc Pos K E : Type}

/-- `ChooseBranch::test` (lib.rs): retrieve the test of this branch.  A set
`disambiguate` flag is examined first: `Some(false)` yields `None`
immediately, `Some(true)` yields the disambiguate test; only an unset flag
lets the remaining test fields be examined in order. -/
def ChooseBranch.test (b : ChooseBranch V DV Loc Pos K E) :
    Option (ChooseTest V DV Loc Pos K) :=
  match b.disambiguate with
  | some d => if d then some .disambiguate else none
  | none =>
    match b.is_numeric with
    | some is_numeric => some (.isNumeric is_numeric)
    | none =>
      match b.is_uncertain_date with
      | some is_uncertain_date => some (.isUncertainDate is_uncertain_date)
      | none =>
        match b.locator with
        | some locator => some (.locator locator)
        | none =>
          match b.position with
          | some position => some (.position position)
          | none =>
            match b.type_ with
            | some type_ => some (.type_ type_)
            | none => b.variable_.map (fun v => .variable_ v)

/-- `TermForm` (lib.rs): the variant of a term translation. -/
inductive TermForm where
  | long
  | short
  | verb
  | verbShort
  | symbol
deriving DecidableEq, Repr

/-- `OrdinalMatch` (lib.rs): when an ordinal term is used. -/
inductive OrdinalMatch where
  | lastDigit
  | lastTwoDigits
  | wholeNumber
deriving DecidableEq, Repr

/-- `GrammarGender` (lib.rs). -/
inductive GrammarGender where
  | feminine
  | masculine
deriving DecidableEq, Repr

/-- `OtherTerm` (taxonomy.rs): terms that are not defined via types, name or
number variables.  Only the ordinal-shaped constructors matter to the ordinal
lookup; the numerous remaining word terms (punctuation, seasons, months, …)
are inert for it and are collapsed into the `month` and `misc` constructors
(tagged so that distinct source variants stay distinct). -/
inductive OtherTerm where
  | month (n : Nat)
  | ordinal
  | ordinalN (n : Nat)
  | longOrdinal (n : Nat)
  | misc (tag : Nat)
deriving DecidableEq, Repr

/-- `Term` (taxonomy.rs): localizable terms.  The payloads of the non-`Other`
constructors (item kinds, name/number variables, locators) are inert
taxonomy tokens for the ordinal lookup and are embedded as tags. -/
inductive Term where
  | kind (tag : Nat)
  | nameVariable (tag : Nat)
  | numberVariable (tag : Nat)
  | locator (tag : Nat)
  | other (t : OtherTerm)
deriving DecidableEq, Repr

/-- `LocalizedTerm` (lib.rs): a term localization, with optional singular and
plural variants and ordinal matching metadata. -/
structure LocalizedTerm where
  name : Term
  localization : Option String := none
  single : Option String := none
  multiple : Option String := none
  form : TermForm := .long
  match_ : Option OrdinalMatch := none
  gender : Option GrammarGender := none
  gender_form : Option GrammarGender := none
deriving DecidableEq, Repr

/-- `LocalizedTerm::single` (lib.rs): the singular variant, falling back to
the plain localization. -/
def LocalizedTerm.single_text (t : LocalizedTerm) : Option String :=
  t.single.or t.localization

/-- `LocalizedTerm::multiple` (lib.rs): the plural variant, falling back to
the plain localization. -/
def LocalizedTerm.multiple_text (t : LocalizedTerm) : Option String :=
  t.multiple.or t.localization

/-- `OrdinalLookup` (lib.rs): the collected ordinal terms of a locale plus
the legacy-behavior flag decided at construction. -/
structure OrdinalLookup where
  terms : List LocalizedTerm
  legacy_behavior : Bool
deriving DecidableEq, Repr

/-- `OrdinalLookup::new` (lib.rs): legacy behavior is active exactly when the
generic `ordinal` term is absent and the per-class terms `ordinal-01` …
`ordinal-04` are all present. -/
def OrdinalLookup.new (ordinal_terms : List LocalizedTerm) : OrdinalLookup :=
  let terms := ordinal_terms
  let defines_ordinal := terms.any (fun t => t.name = Term.other .ordinal)
  let legacy_behavior :=
    if defines_ordinal then false
    else
      (List.range 4).all (fun k =>
        terms.any (fun t => t.name = Term.other (.ordinalN (k + 1))))
  { terms := terms, legacy_behavior := legacy_behavior }

/-- The legacy ordinal class computed inside `OrdinalLookup::lookup`
(lib.rs): `match (n, n % 10) { (11..=13, _) => 4, (_, v @ 1..=3) => v, _ => 4 }`. -/
def legacy_class (n : Int) : Nat :=
  if 11 ≤ n ∧ n ≤ 13 then 4
  else
    let v := n.tmod 10
    if 1 ≤ v ∧ v ≤ 3 then v.toNat else 4

/-- The per-term hit test of `OrdinalLookup::lookup` (lib.rs): whether `term`
matches the number `n` (terms whose name is not ordinal-shaped never hit). -/
def ordinal_hit (legacy_behavior : Bool) (n : Int) (term : LocalizedTerm) :
    Bool :=
  match term.name with
  | .other term_name =>
    match term_name with
    | .ordinal => true
    | .ordinalN o =>
      if legacy_behavior then decide (o = legacy_class n)
      else if o ≤ 9 then
        match term.match_ with
        | some .lastDigit => decide (n.tmod 10 = (o : Int))
        | none => decide (n.tmod 10 = (o : Int))
        | some .lastTwoDigits => decide (n.tmod 100 = (o : Int))
        | some .wholeNumber => decide (n = (o : Int))
      else if o ≤ 99 then
        match term.match_ with
        | some .lastTwoDigits => decide (n.tmod 100 = (o : Int))
        | none => decide (n.tmod 100 = (o : Int))
        | some .wholeNumber => decide (n = (o : Int))
        | _ => false
      else false
    | _ => false
  | _ => false

/-- The `change_match` closure of `OrdinalLookup::lookup` (lib.rs): fold a
new hit into the current best match, preferring `>= 10`-valued terms for no
reason here beyond the source's rule, then gender agreement, then the
numerically closest term value. -/
def change_match (gender : Option GrammarGender) (n : Int)
    (best : Option LocalizedTerm) (other_match : LocalizedTerm) :
    Option LocalizedTerm :=
  match best with
  | none => some other_match
  | some current =>
    match other_match.name with
    | .other (.ordinalN other_n) =>
      match current.name with
      | .other (.ordinalN curr_n) =>
        some <|
          if other_n ≥ 10 ∧ curr_n < 10 then other_match
          else if other_n < 10 ∧ curr_n ≥ 10 then current
          else if gender = current.gender ∧ gender ≠ other_match.gender then
            current
          else if gender ≠ current.gender ∧ gender = other_match.gender then
            other_match
          else if (n - (other_n : Int)).natAbs ≤ (n - (curr_n : Int)).natAbs then
            other_match
          else current
      | _ => some other_match
    | _ => some current

/-- `OrdinalLookup::lookup` (lib.rs): fold all hitting ordinal terms through
`change_match` and return the best match's singular (or plural) text. -/
def OrdinalLookup.lookup (lk : OrdinalLookup) (n : Int)
    (gender : Option GrammarGender) : Option String :=
  let best_match :=
    lk.terms.foldl
      (fun best term =>
        if ordinal_hit lk.legacy_behavior n term then
          change_match gender n best term
        else best)
      none
  best_match.bind (fun t => t.single_text.or t.multiple_text)

/-- Fuel-driven floor of the base-10 logarithm (`0` for inputs below `10`,
including `0` itself); the fuel `x` always suffices since the argument shrinks
by a factor of ten each step. -/
def log10_fuel : Nat → Nat → Nat
  | 0, _ => 0
  | fuel + 1, x => if x < 10 then 0 else 1 + log10_fuel fuel (x / 10)

/-- `floor(log10 x)` as a total function on `Nat`. -/
def log10_floor (x : Nat) : Nat := log10_fuel x x

/-- `closest_smaller_power_of_10` (lib.rs): `10^(floor(log10 num))`.  The
source computes this with `f64` logarithms and asserts the exact properties;
for the positive arguments it is used with, this equals
`10 ^ log10_floor num`, which is what the embedding uses. -/
def closest_smaller_power_of_10 (num : Int) : Int :=
  (10 : Int) ^ log10_floor num.toNat

/-- `expand` (lib.rs): expand an already-abbreviated end `b` of a range
starting at `a` to its implied full value. -/
def expand (a b : Int) : Int :=
  let mask := closest_smaller_power_of_10 b * 10
  (a - a.tmod mask) + b.tmod mask

/-- The `while` loop of `changed_part` (lib.rs): starting from `base`, step
down while the digits of `a` and `b` at the current decimal place agree and
the place is still above `min`; returns the final place. -/
def changed_part_loop (a b : Int) (min : Nat) : Nat → Nat
  | 0 => 0
  | base + 1 =>
    if a.tdiv ((10 : Int) ^ (base + 1)) = b.tdiv ((10 : Int) ^ (base + 1)) ∧
        base + 1 > min then
      changed_part_loop a b min base
    else base + 1

/-- `changed_part` (lib.rs): the digits of `b` from the highest decimal place
at which `a` and `b` differ (but no lower than place `min`) downwards.  The
source's `f64` floor-log10 and `i64` saturating powers are exact at the
positive, small values this function is invoked with. -/
def changed_part (a b : Int) (min : Nat) : Int :=
  let start_base := log10_floor (max a b).toNat
  let base := changed_part_loop a b min start_base
  b.tmod ((10 : Int) ^ (base + 1))

/-- `PageRangeFormat::format` (lib.rs): write `start`, the separator (an
en-dash by default), then the full or abbreviated end of the range, according
to the format's rules. -/
def PageRangeFormat.format (f : PageRangeFormat) (start stop : Int)
    (separator : Option String) : String :=
  let sep := separator.getD "–"
  let end_ := if stop ≥ start then stop else expand start stop
  let tail :=
    if start < 0 ∨ stop < 0 then toString end_
    else
      match f with
      | .expanded => toString end_
      | .chicago15 | .chicago16 =>
        if start < 100 ∨ start.tmod 100 = 0 then toString end_
        else if f = .chicago15 ∧ start > 100 ∧ 1 ≤ start.tmod 100 ∧
            start.tmod 100 < 10 then
          toString (changed_part start end_ 0)
        else if f = .chicago15 ∧ closest_smaller_power_of_10 start = 1000 then
          let changed := changed_part start end_ 1
          if closest_smaller_power_of_10 changed = 100 then toString end_
          else toString changed
        else toString (changed_part start end_ 1)
      | .minimal => toString (changed_part start end_ 0)
      | .minimalTwo =>
        if end_ < 10 then toString (changed_part start end_ 1)
        else toString (changed_part start end_ 1)
  toString start ++ sep ++ tail

/-! ### Theorems settling the claims -/

/-- Per-field behavior of `Option.or`: the left (child) value wins when set,
otherwise the right (parent) value is kept. -/
theorem option_or_spec {α : Type} (o p : Option α) :
    (o.isSome → o.or p = o) ∧ (o = none → o.or p = p) := by
  cases o <;> simp

/-- C1: style validation is a pure trichotomy.  Converting a raw style record
yields `Independent` when a citation and independent settings are both
present; fails with `MissingClassAttr` when a citation is present but the
settings are absent; fails with `MissingCitation` when a bibliography is
present without a citation; and fails with `MissingParent` when neither a
citation nor a bibliography nor an independent-parent link is present. -/
theorem style_try_from_trichotomy {C B M L : Type} (r : RawStyle C B M L) :
    (∀ c s, r.citation = some c → r.independent_settings = some s →
      Style.try_from r = .ok (.independent
        { info := r.info
          default_locale := r.default_locale
          version := r.version
          citation := c
          bibliography := r.bibliography
          settings := s
          macros := r.macros
          locale := r.locale })) ∧
    (r.citation.isSome → r.independent_settings = none →
      Style.try_from r = .error .missingClassAttr) ∧
    (r.citation = none → r.bibliography.isSome →
      Style.try_from r = .error .missingCitation) ∧
    (r.citation = none → r.bibliography = none → r.parent_link = none →
      Style.try_from r = .error .missingParent) := by
  refine ⟨?_, ?_, ?_, ?_⟩
  · intro c s hc hs
    simp [Style.try_from, hc, hs]
  · intro hc hs
    obtain ⟨c, hc⟩ := Option.isSome_iff_exists.mp hc
    simp [Style.try_from, hc, hs]
  · intro hc hb
    simp [Style.try_from, hc, hb]
  · intro hc hb hp
    simp [Style.try_from, hc, hb, hp]

/-- Witness for C1: a concrete raw record with a citation and independent
settings validates to the corresponding independent style. -/
theorem style_try_from_trichotomy_witness :
    Style.try_from
        ({ info := {}, citation := some (),
           independent_settings := some { class_ := .inText } } :
          RawStyle Unit Unit Unit Unit) =
      .ok (.independent
        { info := {}
          default_locale := none
          version := ""
          citation := ()
          bibliography := none
          settings := { class_ := .inText }
          macros := []
          locale := [] }) :=
  (style_try_from_trichotomy
    { info := {}, citation := some (),
      independent_settings := some { class_ := .inText } }).1
    () { class_ := .inText } rfl rfl

/-- C2: every field of `apply(parent, child)` equals the child's value when
the child sets the field and the parent's value otherwise. -/
theorem inheritable_name_options_apply_spec
    (a b : InheritableNameOptions) :
    ((b.and.isSome → (a.apply b).and = b.and) ∧
      (b.and = none → (a.apply b).and = a.and)) ∧
    ((b.name_delimiter.isSome → (a.apply b).name_delimiter = b.name_delimiter) ∧
      (b.name_delimiter = none → (a.apply b).name_delimiter = a.name_delimiter)) ∧
    ((b.names_delimiter.isSome → (a.apply b).names_delimiter = b.names_delimiter) ∧
      (b.names_delimiter = none → (a.apply b).names_delimiter = a.names_delimiter)) ∧
    ((b.delimiter_precedes_et_al.isSome →
        (a.apply b).delimiter_precedes_et_al = b.delimiter_precedes_et_al) ∧
      (b.delimiter_precedes_et_al = none →
        (a.apply b).delimiter_precedes_et_al = a.delimiter_precedes_et_al)) ∧
    ((b.delimiter_precedes_last.isSome →
        (a.apply b).delimiter_precedes_last = b.delimiter_precedes_last) ∧
      (b.delimiter_precedes_last = none →
        (a.apply b).delimiter_precedes_last = a.delimiter_precedes_last)) ∧
    ((b.et_al_min.isSome → (a.apply b).et_al_min = b.et_al_min) ∧
      (b.et_al_min = none → (a.apply b).et_al_min = a.et_al_min)) ∧
    ((b.et_al_use_first.isSome → (a.apply b).et_al_use_first = b.et_al_use_first) ∧
      (b.et_al_use_first = none →
        (a.apply b).et_al_use_first = a.et_al_use_first)) ∧
    ((b.et_al_subsequent_min.isSome →
        (a.apply b).et_al_subsequent_min = b.et_al_subsequent_min) ∧
      (b.et_al_subsequent_min = none →
        (a.apply b).et_al_subsequent_min = a.et_al_subsequent_min)) ∧
    ((b.et_al_subsequent_use_first.isSome →
        (a.apply b).et_al_subsequent_use_first = b.et_al_subsequent_use_first) ∧
      (b.et_al_subsequent_use_first = none →
        (a.apply b).et_al_subsequent_use_first = a.et_al_subsequent_use_first)) ∧
    ((b.et_al_use_last.isSome → (a.apply b).et_al_use_last = b.et_al_use_last) ∧
      (b.et_al_use_last = none → (a.apply b).et_al_use_last = a.et_al_use_last)) ∧
    ((b.name_form.isSome → (a.apply b).name_form = b.name_form) ∧
      (b.name_form = none → (a.apply b).name_form = a.name_form)) ∧
    ((b.initialise.isSome → (a.apply b).initialise = b.initialise) ∧
      (b.initialise = none → (a.apply b).initialise = a.initialise)) ∧
    ((b.initialise_with.isSome → (a.apply b).initialise_with = b.initialise_with) ∧
      (b.initialise_with = none →
        (a.apply b).initialise_with = a.initialise_with)) ∧
    ((b.name_as_sort_order.isSome →
        (a.apply b).name_as_sort_order = b.name_as_sort_order) ∧
      (b.name_as_sort_order = none →
        (a.apply b).name_as_sort_order = a.name_as_sort_order)) ∧
    ((b.sort_separator.isSome → (a.apply b).sort_separator = b.sort_separator) ∧
      (b.sort_separator = none →
        (a.apply b).sort_separator = a.sort_separator)) :=
  ⟨option_or_spec b.and a.and,
   option_or_spec b.name_delimiter a.name_delimiter,
   option_or_spec b.names_delimiter a.names_delimiter,
   option_or_spec b.delimiter_precedes_et_al a.delimiter_precedes_et_al,
   option_or_spec b.delimiter_precedes_last a.delimiter_precedes_last,
   option_or_spec b.et_al_min a.et_al_min,
   option_or_spec b.et_al_use_first a.et_al_use_first,
   option_or_spec b.et_al_subsequent_min a.et_al_subsequent_min,
   option_or_spec b.et_al_subsequent_use_first a.et_al_subsequent_use_first,
   option_or_spec b.et_al_use_last a.et_al_use_last,
   option_or_spec b.name_form a.name_form,
   option_or_spec b.initialise a.initialise,
   option_or_spec b.initialise_with a.initialise_with,
   option_or_spec b.name_as_sort_order a.name_as_sort_order,
   option_or_spec b.sort_separator a.sort_separator⟩

/-- Witness for C2: at a concrete pair, a field the child sets takes the
child's value. -/
theorem inheritable_name_options_apply_spec_witness :
    (InheritableNameOptions.apply { et_al_min := some 3 }
        { et_al_min := some 5 }).et_al_min = some 5 :=
  (inheritable_name_options_apply_spec { et_al_min := some 3 }
    { et_al_min := some 5 }).2.2.2.2.2.1.1 rfl

/-- C4: the fixed → structured → fixed date round trip does NOT reproduce the
original value: the structured form stores the zero-based month and day
unchanged, but the structured → fixed conversion subtracts one again, so the
round trip of `{year 2021, month 8, day 9}` yields `{year 2021, month 7,
day 8}`.  (This evaluates the code at the failing input of the code-bug
verdict.) -/
theorem date_roundtrip_off_by_one :
    FixedDateRange.try_from_vec
        (VecDateRange.from_fixed
          { start := { year := 2021, month := some 8, day := some 9 } }) =
      some { start := { year := 2021, month := some 7, day := some 8 } } ∧
    ({ start := { year := 2021, month := some 7, day := some 8 } } :
        FixedDateRange) ≠
      { start := { year := 2021, month := some 8, day := some 9 } } := by
  decide

/-- C9: the five literal page-range formatting cases of the spec, with the
default en-dash separator. -/
theorem page_range_format_literals :
    PageRangeFormat.chicago16.format 1 8 none = "1–8" ∧
    PageRangeFormat.chicago15.format 107 108 none = "107–8" ∧
    PageRangeFormat.minimal.format 321 328 none = "321–8" ∧
    PageRangeFormat.expanded.format 42 45 none = "42–45" ∧
    PageRangeFormat.minimalTwo.format 2787 2816 none = "2787–816" := by
  decide

/-- C10: a raw style record with both a citation layout and independent
settings validates to `Independent` even when the metadata also contains an
independent-parent link; and when no citation and no bibliography are
present, the first link with the independent-parent relation becomes the
parent link of the resulting dependent style. -/
theorem style_try_from_prefers_independent {C B M L : Type}
    (r : RawStyle C B M L) :
    (∀ c s, r.citation = some c → r.independent_settings = some s →
      (∃ l ∈ r.info.link, l.rel = InfoLinkRel.independentParent) →
      Style.try_from r = .ok (.independent
        { info := r.info
          default_locale := r.default_locale
          version := r.version
          citation := c
          bibliography := r.bibliography
          settings := s
          macros := r.macros
          locale := r.locale })) ∧
    (∀ l, r.citation = none → r.bibliography = none →
      r.info.link.find? (fun k => k.rel = InfoLinkRel.independentParent) =
        some l →
      Style.try_from r = .ok (.dependent
        { info := r.info
          default_locale := r.default_locale
          version := r.version
          parent_link := l })) := by
  constructor
  · intro c s hc hs _
    simp [Style.try_from, hc, hs]
  · intro l hc hb hl
    simp [Style.try_from, RawStyle.parent_link, hc, hb, hl]

/-- Witness for C10: a concrete record carrying a citation, settings and an
independent-parent link still validates to the independent style. -/
theorem style_try_from_prefers_independent_witness :
    Style.try_from
        ({ info := { link := [{ href := "p", rel := .independentParent }] }
           citation := some ()
           independent_settings := some { class_ := .note } } :
          RawStyle Unit Unit Unit Unit) =
      .ok (.independent
        { info := { link := [{ href := "p", rel := .independentParent }] }
          default_locale := none
          version := ""
          citation := ()
          bibliography := none
          settings := { class_ := .note }
          macros := []
          locale := [] }) :=
  (style_try_from_prefers_independent
    { info := { link := [{ href := "p", rel := .independentParent }] }
      citation := some ()
      independent_settings := some { class_ := .note } }).1
    () { class_ := .note } rfl rfl
    ⟨{ href := "p", rel := .independentParent }, by simp, rfl⟩

/-- C3: for a valid index (`idx < length`) and a length below `usize::MAX`
(no Rust allocation can reach `usize::MAX` elements), the sentinel-based
source computation `is_suppressed` agrees with the spec's description: never
suppress the final name under use-last, otherwise select the (per-threshold)
subsequent or primary thresholds and suppress iff `length ≥ et_al_min` and
`idx + 1 > et_al_use_first`, unset thresholds never triggering. -/
theorem name_options_is_suppressed_spec (o : NameOptions)
    (idx length : Nat) (is_subsequent : Bool)
    (h1 : idx < length) (h2 : length < USIZE_MAX) :
    o.is_suppressed idx length is_subsequent =
      o.spec_is_suppressed idx length is_subsequent := by
  have hj : idx + 1 < USIZE_MAX := by omega
  have hge : (idx + 1 ≥ length) ↔ (idx + 1 = length) := by omega
  unfold NameOptions.is_suppressed NameOptions.spec_is_suppressed
  cases hul : o.et_al_use_last <;>
  by_cases hidx : idx + 1 = length <;>
  cases is_subsequent <;>
  cases hm1 : o.et_al_subsequent_min <;> cases hm2 : o.et_al_min <;>
  cases hu1 : o.et_al_subsequent_use_first <;> cases hu2 : o.et_al_use_first <;>
  simp [Option.elim, Option.or, hge, hidx, decide_eq_false_iff_not] <;>
  omega

/-- Witness for C3 at a concrete options record, index and length. -/
theorem name_options_is_suppressed_spec_witness :
    1 < 3 ∧ 3 < USIZE_MAX ∧
      (NameOptions.is_suppressed
          { et_al_min := some 2, et_al_use_first := some 1 } 1 3 false =
        NameOptions.spec_is_suppressed
          { et_al_min := some 2, et_al_use_first := some 1 } 1 3 false) :=
  ⟨by decide, by decide,
    name_options_is_suppressed_spec
      { et_al_min := some 2, et_al_use_first := some 1 } 1 3 false
      (by decide) (by decide)⟩

/-- Counterexample to C5 as stated: `"de-AT"` is already region-qualified,
yet `fallback` returns `Some("de-DE")`, not `None` — the code only drops the
mapped value when it equals the input. -/
theorem locale_fallback_region_qualified_counterexample :
    LocaleCode.fallback ⟨"de-AT"⟩ = some ⟨"de-DE"⟩ ∧
    LocaleCode.fallback ⟨"de-AT"⟩ ≠ none := by
  decide

/-- C5 (amended): `fallback` maps an ISO 639-1 base language code through the
fixed table (`fallback("en") = Some("en-US")`); it returns none for
non-ISO-639-1 codes, for two-letter codes missing from the table
(`fallback("xx") = None`), and whenever the mapped value equals the input
(in particular `fallback("en-US") = None`); in every other case it returns
the mapped code — even when the input is already region-qualified. -/
theorem locale_fallback_spec :
    (LocaleCode.fallback ⟨"en"⟩ = some ⟨"en-US"⟩) ∧
    (LocaleCode.fallback ⟨"en-US"⟩ = none) ∧
    (LocaleCode.fallback ⟨"xx"⟩ = none) ∧
    (∀ lc : LocaleCode, (∀ code, lc.parse_base ≠ some (.iso639_1 code)) →
      lc.fallback = none) ∧
    (∀ (lc : LocaleCode) (code : String),
      lc.parse_base = some (.iso639_1 code) →
      locale_fallback_table code = none → lc.fallback = none) ∧
    (∀ (lc : LocaleCode) (code mapped : String),
      lc.parse_base = some (.iso639_1 code) →
      locale_fallback_table code = some mapped →
      mapped = lc.code → lc.fallback = none) ∧
    (∀ (lc : LocaleCode) (code mapped : String),
      lc.parse_base = some (.iso639_1 code) →
      locale_fallback_table code = some mapped →
      mapped ≠ lc.code → lc.fallback = some ⟨mapped⟩) := by
  refine ⟨by decide, by decide, by decide, ?_, ?_, ?_, ?_⟩
  · intro lc h
    unfold LocaleCode.fallback
    cases hp : lc.parse_base with
    | none => rfl
    | some b =>
      cases b with
      | iso639_1 c => exact absurd hp (h c)
      | iana c => rfl
      | unregistered c => rfl
  · intro lc code hp ht
    unfold LocaleCode.fallback
    rw [hp]
    dsimp only
    rw [ht]
    rfl
  · intro lc code mapped hp ht heq
    unfold LocaleCode.fallback
    rw [hp]
    dsimp only
    rw [ht]
    cases lc with
    | mk c =>
      simp at heq
      subst heq
      simp [Option.filter]
  · intro lc code mapped hp ht hne
    unfold LocaleCode.fallback
    rw [hp]
    dsimp only
    rw [ht]
    cases lc with
    | mk c =>
      have : LocaleCode.mk mapped ≠ LocaleCode.mk c := by
        simp only [ne_eq, LocaleCode.mk.injEq]
        simpa using hne
      simp [Option.filter, this]

/-- Witness for C5 at the concrete unknown two-letter code `"zz"`. -/
theorem locale_fallback_spec_witness :
    LocaleCode.parse_base ⟨"zz"⟩ = some (.iso639_1 "zz") ∧
    locale_fallback_table "zz" = none ∧
    LocaleCode.fallback ⟨"zz"⟩ = none :=
  ⟨by decide, by decide,
    locale_fallback_spec.2.2.2.2.1 ⟨"zz"⟩ "zz" (by decide) (by decide)⟩

/-- Counterexample to C6 as stated: a branch with `disambiguate = Some(false)`
and a set `variable` test field still yields no test, although the claim says
a branch with a set test field returns its single active test. -/
theorem choose_branch_test_counterexample :
    (ChooseBranch.test
        ({ disambiguate := some false, variable_ := some [()] } :
          ChooseBranch Unit Unit Unit Unit Unit Unit)) = none ∧
    ({ disambiguate := some false, variable_ := some [()] } :
        ChooseBranch Unit Unit Unit Unit Unit Unit).variable_ ≠ none := by
  constructor
  · rfl
  · simp

/-- C6 (amended): `branch.test()` returns no test exactly when the
disambiguate flag is set but false, or when the flag is unset and none of
the other test fields is set; in every other case it returns the single
active test, examining the fields in source order (a truthy disambiguate
flag wins and a set-but-false one masks all the other fields). -/
theorem choose_branch_test_spec {V DV Loc Pos K E : Type}
    (b : ChooseBranch V DV Loc Pos K E) :
    (b.test = none ↔
      (b.disambiguate = some false ∨
        (b.disambiguate = none ∧ b.is_numeric = none ∧
          b.is_uncertain_date = none ∧ b.locator = none ∧ b.position = none ∧
          b.type_ = none ∧ b.variable_ = none))) ∧
    (b.disambiguate = some true → b.test = some .disambiguate) ∧
    (∀ v, b.disambiguate = none → b.is_numeric = some v →
      b.test = some (.isNumeric v)) ∧
    (∀ v, b.disambiguate = none → b.is_numeric = none →
      b.is_uncertain_date = some v → b.test = some (.isUncertainDate v)) ∧
    (∀ v, b.disambiguate = none → b.is_numeric = none →
      b.is_uncertain_date = none → b.locator = some v →
      b.test = some (.locator v)) ∧
    (∀ v, b.disambiguate = none → b.is_numeric = none →
      b.is_uncertain_date = none → b.locator = none → b.position = some v →
      b.test = some (.position v)) ∧
    (∀ v, b.disambiguate = none → b.is_numeric = none →
      b.is_uncertain_date = none → b.locator = none → b.position = none →
      b.type_ = some v → b.test = some (.type_ v)) ∧
    (∀ v, b.disambiguate = none → b.is_numeric = none →
      b.is_uncertain_date = none → b.locator = none → b.position = none →
      b.type_ = none → b.variable_ = some v →
      b.test = some (.variable_ v)) := by
  refine ⟨?_, ?_, ?_, ?_, ?_, ?_, ?_, ?_⟩
  · cases hd : b.disambiguate with
    | some d =>
      cases d <;> simp [ChooseBranch.test, hd]
    | none =>
      cases h1 : b.is_numeric <;> cases h2 : b.is_uncertain_date <;>
      cases h3 : b.locator <;> cases h4 : b.position <;>
      cases h5 : b.type_ <;> cases h6 : b.variable_ <;>
      simp [ChooseBranch.test, hd, h1, h2, h3, h4, h5, h6]
  · intro hd; simp [ChooseBranch.test, hd]
  · intro v hd h1; simp [ChooseBranch.test, hd, h1]
  · intro v hd h1 h2; simp [ChooseBranch.test, hd, h1, h2]
  · intro v hd h1 h2 h3; simp [ChooseBranch.test, hd, h1, h2, h3]
  · intro v hd h1 h2 h3 h4; simp [ChooseBranch.test, hd, h1, h2, h3, h4]
  · intro v hd h1 h2 h3 h4 h5; simp [ChooseBranch.test, hd, h1, h2, h3, h4, h5]
  · intro v hd h1 h2 h3 h4 h5 h6
    simp [ChooseBranch.test, hd, h1, h2, h3, h4, h5, h6]

/-- Witness for C6: a concrete branch with a truthy disambiguate flag yields
the disambiguate test. -/
theorem choose_branch_test_spec_witness :
    (ChooseBranch.test
        ({ disambiguate := some true } :
          ChooseBranch Unit Unit Unit Unit Unit Unit)) =
      some .disambiguate :=
  (choose_branch_test_spec { disambiguate := some true }).2.1 rfl

/-- A digit run followed by a non-matching character splits exactly there
under `takeWhile`/`dropWhile` (the scanner's `eat_while`). -/
theorem span_append_stop (p : Char → Bool) (ys t : List Char) (c : Char)
    (h : ∀ x ∈ ys, p x = true) (hc : p c = false) :
    ((ys ++ c :: t).takeWhile p = ys) ∧
      ((ys ++ c :: t).dropWhile p = c :: t) := by
  induction ys with
  | nil => simp [List.takeWhile, List.dropWhile, hc]
  | cons y ys ih =>
    have hy : p y = true := h y (by simp)
    have ih' := ih (fun x hx => h x (by simp [hx]))
    simp [List.takeWhile_cons, List.dropWhile_cons, hy, ih'.1, ih'.2]

/-- A list all of whose elements match is consumed whole by
`takeWhile`/`dropWhile`. -/
theorem span_all (p : Char → Bool) (ys : List Char)
    (h : ∀ x ∈ ys, p x = true) :
    (ys.takeWhile p = ys) ∧ (ys.dropWhile p = []) := by
  induction ys with
  | nil => simp
  | cons y ys ih =>
    have hy : p y = true := h y (by simp)
    have ih' := ih (fun x hx => h x (by simp [hx]))
    simp [List.takeWhile_cons, List.dropWhile_cons, hy, ih'.1, ih'.2]

/-- C7: date-string parsing surfaces out-of-range month and day components
as a typed failure (`none`), never a panic (the embedding `from_str` is a
total function).  A month component whose value minus one (wrapping modulo
256, so a component with value 0 becomes 255) exceeds 11 fails, and a day
component whose value minus one exceeds 31 fails. -/
theorem date_from_str_out_of_range :
    (∀ (ys ms : List Char),
      ys ≠ [] → (∀ c ∈ ys, c.isDigit = true) → digits_to_nat ys ≤ 32767 →
      ms ≠ [] → (∀ c ∈ ms, c.isDigit = true) → digits_to_nat ms ≤ 255 →
      (digits_to_nat ms + 255) % 256 > 11 →
      FixedDateRange.from_str (ys ++ '-' :: ms) = none) ∧
    (∀ (ys ms ds : List Char),
      ys ≠ [] → (∀ c ∈ ys, c.isDigit = true) → digits_to_nat ys ≤ 32767 →
      ms ≠ [] → (∀ c ∈ ms, c.isDigit = true) → digits_to_nat ms ≤ 255 →
      (digits_to_nat ms + 255) % 256 ≤ 11 →
      ds ≠ [] → (∀ c ∈ ds, c.isDigit = true) → digits_to_nat ds ≤ 255 →
      (digits_to_nat ds + 255) % 256 > 31 →
      FixedDateRange.from_str (ys ++ '-' :: (ms ++ '-' :: ds)) = none) := by
  constructor
  · intro ys ms hys hysd hy hms hmsd hmsv hrange
    have hspan := span_append_stop Char.isDigit ys ms '-' hysd (by decide)
    have hall := span_all Char.isDigit ms hmsd
    simp only [FixedDateRange.from_str, parse_date, hspan.1, hspan.2,
      hall.1, hall.2, parse_i16, parse_u8, if_neg hys, if_neg hms,
      if_pos hy, if_pos hmsv, if_pos hrange]
  · intro ys ms ds hys hysd hy hms hmsd hmsv hmon hds hdsd hdsv hrange
    have hspan1 :=
      span_append_stop Char.isDigit ys (ms ++ '-' :: ds) '-' hysd (by decide)
    have hspan2 := span_append_stop Char.isDigit ms ds '-' hmsd (by decide)
    have hall := span_all Char.isDigit ds hdsd
    have hnmon : ¬((digits_to_nat ms + 255) % 256 > 11) := by omega
    simp only [FixedDateRange.from_str, parse_date, hspan1.1, hspan1.2,
      hspan2.1, hspan2.2, hall.1, hall.2, parse_i16, parse_u8,
      if_neg hys, if_neg hms, if_neg hds, if_pos hy, if_pos hmsv,
      if_pos hdsv, if_neg hnmon, if_pos hrange]

/-- Witness for C7: parsing `"2024-0"` (a month component with value 0)
fails with `none` rather than panicking. -/
theorem date_from_str_out_of_range_witness :
    FixedDateRange.from_str "2024-0".data = none :=
  date_from_str_out_of_range.1 ['2', '0', '2', '4'] ['0']
    (by decide) (by decide) (by decide) (by decide) (by decide) (by decide)
    (by decide)

/-- C8: for a lookup built from exactly the four legacy per-class ordinal
terms 1–4 (and no generic ordinal term), `lookup` classifies a non-negative
number by its last digit: 11–13 and last digits 0 and 4–9 select the class-4
term, last digits 1, 2, 3 select the corresponding class term.  In
particular `lookup` at 11, 12, 13 yields the class-4 text and at 1, 21, 101
the class-1 text. -/
theorem ordinal_lookup_legacy_classes (s1 s2 s3 s4 : String) (n : Int) (hn : 0 ≤ n) :
    (OrdinalLookup.new
      [{ name := .other (.ordinalN 1), single := some s1 },
       { name := .other (.ordinalN 2), single := some s2 },
       { name := .other (.ordinalN 3), single := some s3 },
       { name := .other (.ordinalN 4), single := some s4 }]).lookup n none =
      some (if 11 ≤ n ∧ n ≤ 13 then s4
        else if n.tmod 10 = 1 then s1
        else if n.tmod 10 = 2 then s2
        else if n.tmod 10 = 3 then s3
        else s4) := by
  have hv0 : 0 ≤ n.tmod 10 := Int.tmod_nonneg 10 hn
  have hnew : OrdinalLookup.new
      [{ name := .other (.ordinalN 1), single := some s1 },
       { name := .other (.ordinalN 2), single := some s2 },
       { name := .other (.ordinalN 3), single := some s3 },
       { name := .other (.ordinalN 4), single := some s4 }] =
      { terms :=
          [{ name := .other (.ordinalN 1), single := some s1 },
           { name := .other (.ordinalN 2), single := some s2 },
           { name := .other (.ordinalN 3), single := some s3 },
           { name := .other (.ordinalN 4), single := some s4 }]
        legacy_behavior := true } := rfl
  rw [hnew]
  by_cases h13 : 11 ≤ n ∧ n ≤ 13
  · have hc : legacy_class n = 4 := by simp [legacy_class, h13]
    dsimp only [OrdinalLookup.lookup, ordinal_hit]
    rw [hc]
    simp [change_match, LocalizedTerm.single_text, LocalizedTerm.multiple_text,
      h13]
  · by_cases h1 : n.tmod 10 = 1
    · have hc : legacy_class n = 1 := by simp [legacy_class, h13, h1]
      dsimp only [OrdinalLookup.lookup, ordinal_hit]
      rw [hc]
      simp [change_match, LocalizedTerm.single_text,
        LocalizedTerm.multiple_text, h13, h1]
    · by_cases h2 : n.tmod 10 = 2
      · have hc : legacy_class n = 2 := by simp [legacy_class, h13, h2]
        dsimp only [OrdinalLookup.lookup, ordinal_hit]
        rw [hc]
        simp [change_match, LocalizedTerm.single_text,
          LocalizedTerm.multiple_text, h13, h1, h2]
      · by_cases h3 : n.tmod 10 = 3
        · have hc : legacy_class n = 3 := by simp [legacy_class, h13, h3]
          dsimp only [OrdinalLookup.lookup, ordinal_hit]
          rw [hc]
          simp [change_match, LocalizedTerm.single_text,
            LocalizedTerm.multiple_text, h13, h1, h2, h3]
        · have hc : legacy_class n = 4 := by
            simp only [legacy_class, if_neg h13]
            rw [if_neg]
            omega
          dsimp only [OrdinalLookup.lookup, ordinal_hit]
          rw [hc]
          simp [change_match, LocalizedTerm.single_text,
            LocalizedTerm.multiple_text, h13, h1, h2, h3]

/-- Witness for C8: at `n = 11` the class-4 text is selected. -/
theorem ordinal_lookup_legacy_classes_witness :
    (OrdinalLookup.new
      [{ name := .other (.ordinalN 1), single := some "st" },
       { name := .other (.ordinalN 2), single := some "nd" },
       { name := .other (.ordinalN 3), single := some "rd" },
       { name := .other (.ordinalN 4), single := some "th" }]).lookup 11 none =
      some "th" := by
  have h := ordinal_lookup_legacy_classes "st" "nd" "rd" "th" 11 (by decide)
  rw [h, if_pos (by decide : (11 : Int) ≥ 11 ∧ (11 : Int) ≤ 13)]

end Citationberg
